import Mathlib

/-!
Verification development for the Xopt repository slice consisting of
`xopt/generators/sequential/sequential_generator.py` and `xopt/mobo.py`.

Python floats are modelled as exact rationals, pandas DataFrames as lists of
rows, and dict-of-float rows as functions from column name to value.
Exceptions are modelled with `Except`.
-/

namespace Xopt

/-- A data point (Python `Dict[str, float]`): a value for every column name. -/
abbrev Point := String → ℚ

/-- Error kinds raised by the embedded code.  `seqGeneratorError` is the
`SeqGeneratorError` imported from `xopt.errors` in the source.  Modelled from
the spec: the `xopt.errors` module itself is not included in `src/`, so the
other error classes it declares (in particular the `InvalidRequestError`
mentioned by the spec) are represented as further distinct constructors. -/
inductive XoptError where
  | seqGeneratorError (msg : String)
  | invalidRequestError (msg : String)
  | valueError (msg : String)
  | runtimeError (msg : String)

/-- Message of `SequentialGenerator.add_data` when active with no candidate. -/
def msgActiveNoCandidate : String :=
  "Generator is active, but no candidate was generated. Cannot add data."

/-- Message of `SequentialGenerator.add_data` for a multi-row frame while active. -/
def msgMoreThanOne : String :=
  "Cannot add more than one data point when generator is active."

/-- Message of `SequentialGenerator.validate_point` on a tolerance mismatch. -/
def msgNotGenerated : String :=
  "Cannot add data that was not generated by the generator when generator is active. Call reset() to reset the generator first in order to add data via other methods."

/-- Message of `SequentialGenerator.generate` when more than one candidate is requested. -/
def msgOneCandidate : String :=
  "Sequential generators can only generate one candidate at a time."

/-- Message of `SequentialGenerator.set_data` on re-initialization. -/
def msgDataInitialized : String :=
  "Data has already been initialized for this generator."

/-- Message standing for a Python `IndexError` on an empty candidate list. -/
def msgIndexError : String :=
  "list index out of range"

/-- State of `SequentialGenerator` (sequential_generator.py, lines 9-20).
The subclass's private algorithm state is the type parameter `α`; the
subclass hooks `_add_data`, `_generate`, `_set_data`, `_reset` are passed to
the methods that invoke them.  `variable_names` stands for
`self.vocs.variable_names`. -/
structure SequentialGenerator (α : Type) where
  is_active : Bool
  last_candidate : Option (List Point)
  data_set : Bool
  data : Option (List Point)
  variable_names : List String
  internal : α

/-- A freshly constructed generator: the class-level defaults
`is_active = False`, `_last_candidate = None`, `_data_set = False`, and the
base generator's empty dataset. -/
def freshGenerator {α : Type} (names : List String) (a : α) : SequentialGenerator α :=
  { is_active := false
    last_candidate := none
    data_set := false
    data := none
    variable_names := names
    internal := a }

/-- The `np.allclose(a, b, atol=0.0, rtol=1e-6)` check used by
`validate_point`: every entry satisfies `|a - b| <= 0 + 1e-6 * |b|`. -/
def allclose (a b : List ℚ) : Bool :=
  a.length == b.length &&
    (a.zip b).all (fun p => |p.1 - p.2| ≤ (1 / 1000000 : ℚ) * |p.2|)

/-- `SequentialGenerator.validate_point` (lines 59-71): compares the first
entry of `_last_candidate` against `point` on the variable columns with
`np.allclose(..., atol=0.0, rtol=1e-6)` and raises `SeqGeneratorError` on a
mismatch. -/
def validate_point {α : Type} (g : SequentialGenerator α) (point : Point) :
    Except XoptError Unit :=
  match g.last_candidate with
  | none => .error (.runtimeError msgIndexError)
  | some lc =>
    match lc with
    | [] => .error (.runtimeError msgIndexError)
    | lc0 :: _ =>
      let last_candidate := g.variable_names.map lc0
      let point_variables := g.variable_names.map point
      if allclose last_candidate point_variables then .ok ()
      else .error (.seqGeneratorError msgNotGenerated)

/-- `SequentialGenerator.add_data` (lines 22-57).  When active it requires a
generated candidate and at most one new row, and then runs
`validate_point(self._last_candidate[0])` — i.e. the source passes the first
entry of the stored last candidate itself as the point to validate.  On
success the new rows are appended to `self.data` and the subclass hook
`_add_data` is invoked on the new rows. -/
def add_data {α : Type} (hook : List Point → α → α) (g : SequentialGenerator α)
    (new_data : List Point) : Except XoptError (SequentialGenerator α) :=
  let checks : Except XoptError Unit :=
    if g.is_active then
      match g.last_candidate with
      | none => .error (.seqGeneratorError msgActiveNoCandidate)
      | some lc =>
        if new_data.length > 1 then .error (.seqGeneratorError msgMoreThanOne)
        else
          match lc with
          | [] => .error (.runtimeError msgIndexError)
          | lc0 :: _ => validate_point g lc0
    else .ok ()
  match checks with
  | .error e => .error e
  | .ok _ =>
    let data := match g.data with
      | some d => some (d ++ new_data)
      | none => some new_data
    .ok { g with data := data, internal := hook new_data g.internal }

/-- `SequentialGenerator.generate` (lines 112-147): rejects
`n_candidates > 1` with `SeqGeneratorError`; otherwise calls the subclass
hook `_generate` (with `first_gen = True` and activation on the first call)
and stores the returned candidate in `_last_candidate`. -/
def generate {α : Type} (hook : Bool → α → Option (List Point) × α)
    (g : SequentialGenerator α) (n_candidates : Nat) :
    Except XoptError (Option (List Point) × SequentialGenerator α) :=
  if n_candidates > 1 then .error (.seqGeneratorError msgOneCandidate)
  else
    let step :=
      if g.is_active = false then
        let c := hook true g.internal
        (c.1, { g with internal := c.2, is_active := true })
      else
        let c := hook false g.internal
        (c.1, { g with internal := c.2 })
    .ok (step.1, { step.2 with last_candidate := step.1 })

/-- `SequentialGenerator.set_data` (lines 91-105): one-time bulk initializer
guarded by the `_data_set` flag; delegates to the subclass hook `_set_data`. -/
def set_data {α : Type} (hook : List Point → α → α) (g : SequentialGenerator α)
    (d : List Point) : Except XoptError (SequentialGenerator α) :=
  if g.data_set then .error (.valueError msgDataInitialized)
  else .ok { g with internal := hook d g.internal, data_set := true }

/-- `SequentialGenerator.reset` (lines 167-173): clears `is_active` and
`_last_candidate` and invokes the subclass hook `_reset`.  No other field is
touched. -/
def reset {α : Type} (hook : α → α) (g : SequentialGenerator α) :
    SequentialGenerator α :=
  { g with is_active := false, last_candidate := none, internal := hook g.internal }

/-! Embedding of `xopt/mobo.py`.  The external botorch capabilities (model
fitting, the acquisition function itself, `optimize_acqf`) are out of scope
per the spec; where the code calls them we either record the arguments
passed (for the acquisition optimizer) or model their documented
input/output behaviour (`standardize`, `is_non_dominated`,
`Hypervolume.compute`). -/

/-- One completed evaluation outcome as produced by `sampler_evaluate`
(mobo.py, lines 44-73): the attempted inputs, the output mapping and the
error flag.  On a failed outcome `collect_results` never reads `outputs`. -/
structure EvalResult where
  inputs : Point
  outputs : Point
  error : Bool

/-- The VOCS configuration dicts read by mobo.py: variable name to bounds,
objective name to direction string, constraint name to
(direction string, threshold). -/
structure VocsSpec where
  vars : List (String × (ℚ × ℚ))
  objectives : List (String × String)
  constraints : List (String × (String × ℚ))

/-- Error raised by `collect_results` (mobo.py, lines 40-41, 120-121). -/
inductive MoboError where
  | noValidResultsError

/-- The input row built from one successful result
(`[result['inputs'][ele] for ele in vocs['variables'].keys()]`). -/
def row_x (vocs : VocsSpec) (r : EvalResult) : List ℚ :=
  vocs.vars.map (fun ele => r.inputs ele.1)

/-- The objective row built from one successful result. -/
def row_y (vocs : VocsSpec) (r : EvalResult) : List ℚ :=
  vocs.objectives.map (fun ele => r.outputs ele.1)

/-- The constraint row built from one successful result. -/
def row_c (vocs : VocsSpec) (r : EvalResult) : List ℚ :=
  vocs.constraints.map (fun ele => r.outputs ele.1)

/-- Accumulator of the `for result in results` loop of `collect_results`. -/
structure CollectAcc where
  train_x : List (List ℚ)
  train_y : List (List ℚ)
  train_c : List (List ℚ)
  at_least_one_point : Bool

/-- One step of the `collect_results` loop (mobo.py, lines 112-118): a
non-error result appends its rows and sets the flag; an error result is
skipped. -/
def collect_step (vocs : VocsSpec) (acc : CollectAcc) (result : EvalResult) :
    CollectAcc :=
  if !result.error then
    { train_x := acc.train_x ++ [row_x vocs result]
      train_y := acc.train_y ++ [row_y vocs result]
      train_c := acc.train_c ++ [row_c vocs result]
      at_least_one_point := true }
  else acc

/-- `collect_results` (mobo.py, lines 101-127): folds over the results and
raises `NoValidResultsError` when no success was seen. -/
def collect_results (results : List EvalResult) (vocs : VocsSpec) :
    Except MoboError (List (List ℚ) × List (List ℚ) × List (List ℚ)) :=
  let acc := results.foldl (collect_step vocs) ⟨[], [], [], false⟩
  if acc.at_least_one_point = false then .error .noValidResultsError
  else .ok (acc.train_x, acc.train_y, acc.train_c)

/-- The successful outcomes of a batch, in encounter order. -/
def successes (results : List EvalResult) : List EvalResult :=
  results.filter (fun r => !r.error)

/-- Sign correction of one objective entry (mobo.py, lines 348-356):
`MINIMIZE` negates, `MAXIMIZE` passes through, and any other direction only
logs a warning, leaving the entry as it was cloned. -/
def correct_objective_entry (direction : String) (y : ℚ) : ℚ :=
  if direction = "MINIMIZE" then -y
  else if direction = "MAXIMIZE" then y
  else y

/-- Sign correction of one constraint entry (mobo.py, lines 362-369):
`GREATER_THAN` gives `threshold - raw`, `LESS_THAN` gives
`-(threshold - raw)`, and any other direction only logs a warning, leaving
the entry at its raw cloned value. -/
def correct_constraint_entry (direction : String) (threshold : ℚ) (c : ℚ) : ℚ :=
  if direction = "GREATER_THAN" then threshold - c
  else if direction = "LESS_THAN" then -(threshold - c)
  else c

/-- The per-iteration `corrected_train_y` tensor (mobo.py, lines 344-356). -/
def corrected_train_y (vocs : VocsSpec) (train_y : List (List ℚ)) :
    List (List ℚ) :=
  train_y.map (fun row =>
    (row.zip vocs.objectives).map (fun p => correct_objective_entry p.2.2 p.1))

/-- The per-iteration `corrected_train_c` tensor (mobo.py, lines 345, 362-369). -/
def corrected_train_c (vocs : VocsSpec) (train_c : List (List ℚ)) :
    List (List ℚ) :=
  train_c.map (fun row =>
    (row.zip vocs.constraints).map (fun p =>
      correct_constraint_entry p.2.2.1 p.2.2.2 p.1))

/-- The per-iteration `corrected_ref` vector (mobo.py, lines 343, 348-356):
only `MINIMIZE` objectives negate their reference entry. -/
def corrected_ref (vocs : VocsSpec) (ref : List ℚ) : List ℚ :=
  (ref.zip vocs.objectives).map (fun p =>
    if p.2.2 = "MINIMIZE" then -p.1 else p.1)

/-- Exact rational square root helper: for a nonnegative rational whose
square root is rational the result is exact, which covers every value the
development evaluates (in particular variance zero). -/
def ratSqrt (q : ℚ) : ℚ :=
  if q ≤ 0 then 0
  else (Nat.sqrt (q.num.toNat * q.den) : ℚ) / (q.den : ℚ)

/-- Mean of a column. -/
def col_mean (c : List ℚ) : ℚ := c.sum / (c.length : ℚ)

/-- Unbiased variance of a column (`torch.std` uses the `n - 1` correction;
a single-row column divides by zero, which like the resulting NaN in torch
falls into the clamp branch of `standardize`). -/
def col_var (c : List ℚ) : ℚ :=
  ((c.map (fun y => (y - col_mean c) ^ 2)).sum) / ((c.length - 1 : ℕ) : ℚ)

/-- Standard deviation of a column. -/
def col_std (c : List ℚ) : ℚ := ratSqrt (col_var c)

/-- The external `botorch.utils.transforms.standardize`: per column,
subtract the mean and divide by the standard deviation, replacing standard
deviations below `1e-8` by `1`. -/
def standardize (Y : List (List ℚ)) : List (List ℚ) :=
  Y.map (fun row =>
    (List.range row.length).map (fun j =>
      let c := Y.map (fun r => r.getD j 0)
      let s := col_std c
      let s2 := if s < (1 / 100000000 : ℚ) then 1 else s
      (row.getD j 0 - col_mean c) / s2))

/-- `torch.hstack` of two row-major matrices with equal row counts. -/
def hstack (A B : List (List ℚ)) : List (List ℚ) :=
  (A.zip B).map (fun p => p.1 ++ p.2)

/-- The feasibility test `(c <= 0).all(dim=-1)` of one constraint row. -/
def row_feasible (row : List ℚ) : Bool := row.all (fun c => c ≤ 0)

/-- Strict Pareto dominance in the maximize-everywhere convention, as in
the external `botorch...is_non_dominated`: `a` dominates `b` when `a` is
componentwise at least `b` and strictly greater somewhere. -/
def dominates (a b : List ℚ) : Bool :=
  ((a.zip b).all (fun p => p.2 ≤ p.1)) && ((a.zip b).any (fun p => p.2 < p.1))

/-- The rows kept by `Y[is_non_dominated(Y)]`. -/
def pareto_subset (Y : List (List ℚ)) : List (List ℚ) :=
  Y.filter (fun y => !(Y.any (fun z => dominates z y)))

/-- Componentwise minimum of two vectors. -/
def pointwise_min (a b : List ℚ) : List ℚ :=
  (a.zip b).map (fun p => min p.1 p.2)

/-- Volume of the box spanned between the reference point and an upper
corner, clamped at zero in each coordinate. -/
def box_vol (ref m : List ℚ) : ℚ :=
  ((m.zip ref).map (fun p => max (p.1 - p.2) 0)).prod

/-- The external `botorch...Hypervolume.compute`: exact dominated
hypervolume of a point set with respect to a reference point, computed by
inclusion-exclusion over the boxes below each point. -/
def hv_compute (ref : List ℚ) (pts : List (List ℚ)) : ℚ :=
  pts.sublists.foldl (fun acc s =>
    match s with
    | [] => acc
    | p :: rest =>
      acc + (-1 : ℚ) ^ (s.length + 1) * box_vol ref (rest.foldl pointwise_min p)) 0

/-- The arguments `optimize_qehvi` passes to the external continuous
optimizer `optimize_acqf` (mobo.py, lines 223-231).  Bounds are kept per
variable as a (low, high) pair, equivalent to the source's 2-by-d tensor. -/
structure AcqCall where
  bounds : List (ℚ × ℚ)
  q : Nat
  num_restarts : Nat
  raw_samples : Nat
  sequential : Bool

/-- Torch-style indexing `Z[..., i]` of the last tensor dimension with a
possibly negative index, used to read which model output a constraint
callable of the acquisition function selects. -/
def torchIndex (Z : List ℚ) (i : Int) : ℚ :=
  if i < 0 then Z.getD (Z.length - (-i).toNat) 0 else Z.getD i.toNat 0

/-- Observable trace of `optimize_qehvi` (mobo.py, lines 130-234): every
quantity the function computes and hands to the external botorch
capabilities, plus the candidates it returns.  Each constraint callable
`lambda Z: Z[..., i]` is recorded by the index `i` it selects. -/
structure QehviTrace where
  n_objectives : Nat
  n_constraints : Nat
  partitioning_Y : List (List ℚ)
  acq_ref_point : List ℚ
  objective_outcomes : List Nat
  constraint_functions : List Int
  standard_bounds : List (ℚ × ℚ)
  acq_call : AcqCall
  candidates : List (List ℚ)

/-- `optimize_qehvi` (mobo.py, lines 130-234).  `opt` is the external
`optimize_acqf` capability.  The source computes the feasible and
better-than-reference rows, partitions them, hardcodes the two constraint
callables `Z[..., -1]` and `Z[..., -2]`, builds `standard_bounds` (unused),
calls `optimize_acqf` with the raw `bounds`, `q = batch_size` and
`sequential=True`, and returns `candidates.detach()` unchanged (the
`unnormalize` call is commented out in the source). -/
def optimize_qehvi (opt : AcqCall → List (List ℚ))
    (train_y train_c : List (List ℚ)) (bounds : List (ℚ × ℚ))
    (ref_point : List ℚ) (batch_size num_restarts raw_samples : Nat) :
    QehviTrace :=
  let n_objectives := (train_y.headD []).length
  let n_constraints := (train_c.headD []).length
  let is_feas := train_c.map row_feasible
  let better_than_ref :=
    train_y.map (fun row => (row.zip ref_point).all (fun p => p.2 < p.1))
  let partitioning_Y :=
    ((train_y.zip (better_than_ref.zip is_feas)).filterMap (fun p =>
      if p.2.1 && p.2.2 then some p.1 else none))
  let constraint_functions : List Int := [-1, -2]
  let standard_bounds := bounds.map (fun _ => ((0 : ℚ), (1 : ℚ)))
  let call : AcqCall :=
    { bounds := bounds
      q := batch_size
      num_restarts := num_restarts
      raw_samples := raw_samples
      sequential := true }
  let candidates := opt call
  { n_objectives := n_objectives
    n_constraints := n_constraints
    partitioning_Y := partitioning_Y
    acq_ref_point := ref_point
    objective_outcomes := List.range n_objectives
    constraint_functions := constraint_functions
    standard_bounds := standard_bounds
    acq_call := call
    candidates := candidates }

/-- State carried across the iterations of the `mobo` loop (mobo.py, lines
333-427), extended with two observability logs: the `train_outputs` tensor
handed to `SingleTaskGP` each iteration, and the objective tensor whose
feasible rows feed the Pareto/hypervolume computation each time a volume is
recorded. -/
structure LoopState where
  train_x : List (List ℚ)
  train_y : List (List ℚ)
  train_c : List (List ℚ)
  hv_track : List ℚ
  fit_outputs_log : List (List (List ℚ))
  hv_source_log : List (List (List ℚ))

/-- One iteration of the `for i in range(n_steps)` loop of `mobo` (mobo.py,
lines 338-427).  `eval_r` is the batch of outcomes the external executor
returns for this iteration's candidates.  The model fit on
`hstack(standardized_train_y, corrected_train_c)` happens before the
evaluation; on `NoValidResultsError` the source `continue`s, skipping both
the dataset update and the hypervolume bookkeeping; otherwise the new rows
are appended and the hypervolume of the feasible Pareto subset of
`corrected_train_y` against `corrected_ref` is appended to `hv_track` (zero
when no feasible row exists). -/
def mobo_iteration (vocs : VocsSpec) (ref : List ℚ) (eval_r : List EvalResult)
    (st : LoopState) : LoopState :=
  let c_ref := corrected_ref vocs ref
  let c_y := corrected_train_y vocs st.train_y
  let c_c := corrected_train_c vocs st.train_c
  let s_y := standardize c_y
  let train_outputs := hstack s_y c_c
  let st1 := { st with fit_outputs_log := st.fit_outputs_log ++ [train_outputs] }
  match collect_results eval_r vocs with
  | .error _ => st1
  | .ok (new_x, new_y, new_c) =>
    let st2 := { st1 with
      train_x := st1.train_x ++ new_x
      train_y := st1.train_y ++ new_y
      train_c := st1.train_c ++ new_c }
    let feas_train_obj :=
      (c_y.zip c_c).filterMap (fun p =>
        if row_feasible p.2 then some p.1 else none)
    let volume :=
      if feas_train_obj.length > 0 then
        hv_compute c_ref (pareto_subset feas_train_obj)
      else 0
    { st2 with
      hv_track := st2.hv_track ++ [volume]
      hv_source_log := st2.hv_source_log ++ [c_y] }

/-- The `for i in range(n_steps)` loop of `mobo`, iterations `0..n-1` in
order; `evals` supplies each iteration's batch of evaluation outcomes. -/
def mobo_run (vocs : VocsSpec) (ref : List ℚ) (evals : Nat → List EvalResult) :
    Nat → LoopState → LoopState
  | 0, st => st
  | n + 1, st => mobo_iteration vocs ref (evals n) (mobo_run vocs ref evals n st)

/-! Concrete fixtures and small observers used by the claim theorems. -/

/-- Whether an `Except` is a success. -/
def exceptOk {ε β : Type} (e : Except ε β) : Bool :=
  match e with
  | .ok _ => true
  | .error _ => false

/-- Whether an `Except` failed with `InvalidRequestError`. -/
def raisedInvalidRequest {β : Type} (e : Except XoptError β) : Bool :=
  match e with
  | .error (.invalidRequestError _) => true
  | _ => false

/-- Whether an `Except` failed with `SeqGeneratorError`. -/
def raisedSeqGenError {β : Type} (e : Except XoptError β) : Bool :=
  match e with
  | .error (.seqGeneratorError _) => true
  | _ => false

/-- Number of dataset rows in a successful generator result. -/
def okDataLen {α : Type} (e : Except XoptError (SequentialGenerator α)) : Nat :=
  match e with
  | .ok g => (g.data.getD []).length
  | .error _ => 0

/-- Data point with every column equal to 1. -/
def pOne : Point := fun _ => 1

/-- Data point with every column equal to 2. -/
def pTwo : Point := fun _ => 2

/-- A do-nothing `_add_data` subclass hook. -/
def unitAddHook : List Point → Unit → Unit := fun _ s => s

/-- An `_add_data` subclass hook counting the rows it was handed. -/
def countAddHook : List Point → ℕ → ℕ := fun nd s => s + nd.length

/-- A `_generate` subclass hook proposing the all-ones point. -/
def unitGenHook : Bool → Unit → Option (List Point) × Unit := fun _ s => (some [pOne], s)

/-- A do-nothing `_reset` subclass hook. -/
def unitResetHook : Unit → Unit := fun s => s

/-- An active generator over one variable whose outstanding candidate is the
all-ones point and whose dataset is empty. -/
def gActive : SequentialGenerator Unit :=
  { is_active := true
    last_candidate := some [pOne]
    data_set := false
    data := some []
    variable_names := ["x"]
    internal := () }

/-- A generator that has been started, fed a saved dataset and is mid-run:
every mutable component differs from the freshly constructed values. -/
def gUsed : SequentialGenerator Unit :=
  { is_active := true
    last_candidate := some [pOne]
    data_set := true
    data := some [pOne]
    variable_names := ["x"]
    internal := () }

/-- VOCS fixture: one variable, one MAXIMIZE objective, one LESS_THAN
constraint with threshold 0. -/
def vocs0 : VocsSpec :=
  { vars := [("x", (0, 2))]
    objectives := [("f", "MAXIMIZE")]
    constraints := [("g", ("LESS_THAN", 0))] }

/-- VOCS fixture whose constraint direction is an unrecognized string. -/
def vocsBad : VocsSpec :=
  { vars := [("x", (0, 2))]
    objectives := [("f", "MAXIMIZE")]
    constraints := [("g", ("EQUAL_TO", 5))] }

/-- A successful evaluation outcome with all outputs equal to 1. -/
def okResult : EvalResult :=
  { inputs := fun _ => 1, outputs := fun _ => 1, error := false }

/-- A failed evaluation outcome. -/
def failResult : EvalResult :=
  { inputs := fun _ => 1, outputs := fun _ => 0, error := true }

/-- An external acquisition optimizer stub returning one candidate. -/
def opt0 : AcqCall → List (List ℚ) := fun _ => [[1]]

/-- An external acquisition optimizer stub returning the point 3/2, which
lies inside the raw bounds fixture but outside the unit box. -/
def opt7 : AcqCall → List (List ℚ) := fun _ => [[(3 : ℚ) / 2]]

/-- Acquisition trace on a problem with a single constraint column. -/
def qehviTrace1 : QehviTrace :=
  optimize_qehvi opt0 [[1]] [[-1]] [((0 : ℚ), 2)] [0] 1 20 1024

/-- Acquisition trace on raw bounds `[0, 2]`, which differ from the unit box. -/
def qehviTrace7 : QehviTrace :=
  optimize_qehvi opt7 [[1]] [[-1, -1]] [((0 : ℚ), 2)] [0] 1 20 1024

/-- Loop-state fixture with one prior observation. -/
def st0 : LoopState :=
  { train_x := [[1]]
    train_y := [[1]]
    train_c := [[-1]]
    hv_track := []
    fit_outputs_log := []
    hv_source_log := [] }

/-- Loop-state fixture whose two feasible observations share the objective
value 5, so that standardization moves the objective column to 0. -/
def st6 : LoopState :=
  { train_x := [[1], [1]]
    train_y := [[5], [5]]
    train_c := [[-1], [-1]]
    hv_track := []
    fit_outputs_log := []
    hv_source_log := [] }

/-- An evaluation schedule on which every batch fails. -/
def evalsFail : Nat → List EvalResult := fun _ => [failResult]

/-- An evaluation schedule on which every batch succeeds. -/
def evalsOk : Nat → List EvalResult := fun _ => [okResult]

/-! Helper lemmas shared by the claim theorems. -/

/-- Characterization of the `collect_results` fold: the rows are exactly the
rows of the successful outcomes in encounter order, and the flag records
whether any success occurred. -/
lemma foldl_collect_step (vocs : VocsSpec) (results : List EvalResult)
    (acc : CollectAcc) :
    results.foldl (collect_step vocs) acc =
      ⟨acc.train_x ++ (successes results).map (row_x vocs),
       acc.train_y ++ (successes results).map (row_y vocs),
       acc.train_c ++ (successes results).map (row_c vocs),
       acc.at_least_one_point || results.any (fun r => !r.error)⟩ := by
  induction results generalizing acc with
  | nil => simp [successes]
  | cons r rs ih =>
    rw [List.foldl_cons, ih]
    cases hr : r.error with
    | false =>
      simp [collect_step, successes, hr, List.filter_cons, List.append_assoc]
    | true =>
      simp [collect_step, successes, hr, List.filter_cons]

/-- `collect_results` returns the success rows when at least one success is
present and raises `NoValidResultsError` otherwise. -/
lemma collect_results_eq (results : List EvalResult) (vocs : VocsSpec) :
    collect_results results vocs =
      if results.any (fun r => !r.error) then
        .ok ((successes results).map (row_x vocs),
             (successes results).map (row_y vocs),
             (successes results).map (row_c vocs))
      else .error .noValidResultsError := by
  rw [collect_results, foldl_collect_step]
  cases h : results.any (fun r => !r.error) <;> simp [h]

/-- A loop iteration records exactly one hypervolume entry when its batch
contains a success and none otherwise. -/
lemma mobo_iteration_hv_length (vocs : VocsSpec) (ref : List ℚ)
    (eval_r : List EvalResult) (st : LoopState) :
    (mobo_iteration vocs ref eval_r st).hv_track.length =
      st.hv_track.length +
        (if eval_r.any (fun r => !r.error) then 1 else 0) := by
  rw [mobo_iteration, collect_results_eq]
  cases h : eval_r.any (fun r => !r.error) <;> simp [h]

/-! Claim theorems. -/

/-- C1 (code bug): with an active generator whose outstanding candidate is
the all-ones point, a single new row with value 2 fails the tolerance check
of `validate_point` — yet `add_data` accepts it and appends it to the
dataset, because the source validates `self._last_candidate[0]` against
itself instead of the new row. -/
theorem C1_code_eval :
    exceptOk (validate_point gActive pTwo) = false ∧
    exceptOk (add_data unitAddHook gActive [pTwo]) = true ∧
    okDataLen (add_data unitAddHook gActive [pTwo]) = 1 := by
  have h12 : allclose [(1 : ℚ)] [2] = false := by norm_num [allclose]
  have h11 : allclose [(1 : ℚ)] [1] = true := by norm_num [allclose]
  refine ⟨?_, ?_, ?_⟩ <;>
    simp [exceptOk, okDataLen, add_data, validate_point, gActive, pOne, pTwo, h11, h12]

/-- C4 counterexample: requesting 2 candidates from a sequential generator
raises `SeqGeneratorError`, not the `InvalidRequestError` the claim names. -/
theorem C4_cex :
    raisedInvalidRequest (generate unitGenHook (freshGenerator ["x"] ()) 2) = false ∧
    raisedSeqGenError (generate unitGenHook (freshGenerator ["x"] ()) 2) = true := by
  decide

/-- C4 (amended): for every sequential generator in any state, `generate`
with more than one requested candidate fails with `SeqGeneratorError`
before touching any state (the functional result is only the error, so
`is_active` and `last_candidate` are unchanged). -/
theorem C4_amended {α : Type} (hook : Bool → α → Option (List Point) × α)
    (g : SequentialGenerator α) (n : Nat) (h : 1 < n) :
    generate hook g n = .error (.seqGeneratorError msgOneCandidate) := by
  simp [generate, h]

/-- C4 witness: the amended theorem evaluated on a fresh generator asked for
2 candidates. -/
theorem C4_witness :
    1 < 2 ∧
    generate unitGenHook (freshGenerator ["x"] ()) 2 =
      .error (.seqGeneratorError msgOneCandidate) :=
  ⟨by decide, C4_amended unitGenHook (freshGenerator ["x"] ()) 2 (by decide)⟩

/-- C9 counterexample: `reset` does not restore the `data_set` one-time flag
to its freshly constructed value `false`, so not every listed state
component returns to its initial value. -/
theorem C9_cex :
    (reset unitResetHook gUsed).data_set = true ∧
    (freshGenerator ["x"] ()).data_set = false := by
  decide

/-- C9 (amended): `reset` sets `is_active` to false, clears
`last_candidate` and invokes the subclass reset hook, while leaving the
`data_set` one-time flag, the accumulated dataset and the variable names
unchanged. -/
theorem C9_amended {α : Type} (hook : α → α) (g : SequentialGenerator α) :
    (reset hook g).is_active = false ∧
    (reset hook g).last_candidate = none ∧
    (reset hook g).data_set = g.data_set ∧
    (reset hook g).data = g.data ∧
    (reset hook g).variable_names = g.variable_names ∧
    (reset hook g).internal = hook g.internal :=
  ⟨rfl, rfl, rfl, rfl, rfl, rfl⟩

/-- C10 (confirmed): when the generator is inactive, `add_data` performs
none of the protocol checks: any list of rows is accepted, appended to the
cumulative dataset and handed to the subclass's `_add_data` hook. -/
theorem C10_add_data_inactive {α : Type} (hook : List Point → α → α)
    (g : SequentialGenerator α) (nd : List Point) (h : g.is_active = false) :
    add_data hook g nd =
      .ok { g with data := some (g.data.getD [] ++ nd),
                   internal := hook nd g.internal } := by
  cases hd : g.data <;> simp [add_data, h, hd]

/-- C10 witness: a fresh generator accepts a three-row frame unrelated to
any candidate; the rows are appended and counted by the hook. -/
theorem C10_witness :
    (freshGenerator ["x"] (0 : ℕ)).is_active = false ∧
    add_data countAddHook (freshGenerator ["x"] (0 : ℕ)) [pOne, pTwo, pOne] =
      .ok { freshGenerator ["x"] (0 : ℕ) with
              data := some ((freshGenerator ["x"] (0 : ℕ)).data.getD [] ++ [pOne, pTwo, pOne])
              internal := countAddHook [pOne, pTwo, pOne] (freshGenerator ["x"] (0 : ℕ)).internal } :=
  ⟨rfl, C10_add_data_inactive countAddHook (freshGenerator ["x"] (0 : ℕ)) [pOne, pTwo, pOne] rfl⟩

/-- C8 (confirmed): a batch of `k + m` outcomes with `k ≥ 1` failures and
`m ≥ 1` successes yields input/objective/constraint tensors with exactly
`m` rows built from the successful outcomes in encounter order, and a batch
with zero successes raises `NoValidResultsError`. -/
theorem C8_collect_results :
    (∀ (vocs : VocsSpec) (results : List EvalResult) (k m : Nat),
        results.length = k + m → 1 ≤ k → 1 ≤ m →
        (successes results).length = m →
        collect_results results vocs =
          .ok ((successes results).map (row_x vocs),
               (successes results).map (row_y vocs),
               (successes results).map (row_c vocs)) ∧
          ((successes results).map (row_x vocs)).length = m ∧
          ((successes results).map (row_y vocs)).length = m ∧
          ((successes results).map (row_c vocs)).length = m) ∧
    (∀ (vocs : VocsSpec) (results : List EvalResult),
        (successes results).length = 0 →
        collect_results results vocs = .error .noValidResultsError) := by
  constructor
  · intro vocs results k m hlen hk hm hsucc
    have hne : successes results ≠ [] := by
      intro he
      rw [he] at hsucc
      simp at hsucc
      omega
    obtain ⟨r, hr⟩ := List.exists_mem_of_ne_nil _ hne
    have hmem := List.mem_filter.mp hr
    have hany : results.any (fun r => !r.error) = true :=
      List.any_eq_true.mpr ⟨r, hmem.1, hmem.2⟩
    rw [collect_results_eq]
    simp [hany, hsucc]
  · intro vocs results hsucc
    have hnil : successes results = [] := List.length_eq_zero.mp hsucc
    have hany : results.any (fun r => !r.error) = false := by
      rw [List.any_eq_false]
      intro r hr hval
      have : r ∈ successes results := List.mem_filter.mpr ⟨hr, hval⟩
      rw [hnil] at this
      exact absurd this (List.not_mem_nil r)
    rw [collect_results_eq]
    simp [hany]

/-- C8 witness: a batch of one failure followed by one success yields the
single success row in each tensor, and the all-failure batch errors. -/
theorem C8_witness :
    (collect_results [failResult, okResult] vocs0 =
      .ok ((successes [failResult, okResult]).map (row_x vocs0),
           (successes [failResult, okResult]).map (row_y vocs0),
           (successes [failResult, okResult]).map (row_c vocs0)) ∧
      ((successes [failResult, okResult]).map (row_x vocs0)).length = 1 ∧
      ((successes [failResult, okResult]).map (row_y vocs0)).length = 1 ∧
      ((successes [failResult, okResult]).map (row_c vocs0)).length = 1) ∧
    collect_results [failResult] vocs0 = .error .noValidResultsError :=
  ⟨C8_collect_results.1 vocs0 [failResult, okResult] 1 1 rfl (by decide) (by decide) rfl,
   C8_collect_results.2 vocs0 [failResult] rfl⟩

/-- C5 (code bug): on the unrecognized constraint direction string the code
logs a warning claiming to default to LESS_THAN but leaves the column at
its raw cloned value; the LESS_THAN correction `-(threshold - raw)` is not
applied. -/
theorem C5_code_eval :
    correct_constraint_entry "EQUAL_TO" 5 3 = 3 ∧
    correct_constraint_entry "EQUAL_TO" 5 3 ≠ -(5 - 3) ∧
    corrected_train_c vocsBad [[3]] = [[3]] := by
  refine ⟨rfl, ?_, rfl⟩
  rw [show correct_constraint_entry "EQUAL_TO" 5 3 = 3 from rfl]
  norm_num

/-- C2 counterexample: on a problem with exactly one constraint column the
acquisition builder still constructs two inequality constraint functions,
so the number of constraint functions does not equal the number of
constraint columns. -/
theorem C2_cex :
    qehviTrace1.n_constraints = 1 ∧
    qehviTrace1.constraint_functions.length = 2 ∧
    qehviTrace1.constraint_functions.length ≠ qehviTrace1.n_constraints := by
  decide

/-- C2 (amended): for every input the acquisition builder constructs
exactly the two hardcoded inequality constraint functions selecting the
model outputs at torch indices -1 and -2 (the last two output columns),
irrespective of the number of constraint columns. -/
theorem C2_amended (opt : AcqCall → List (List ℚ))
    (train_y train_c : List (List ℚ)) (bounds : List (ℚ × ℚ))
    (ref_point : List ℚ) (batch_size num_restarts raw_samples : Nat) :
    (optimize_qehvi opt train_y train_c bounds ref_point batch_size
        num_restarts raw_samples).constraint_functions = [-1, -2] := rfl

/-- C7 counterexample: with raw design bounds `[0, 2]` the box handed to
the external continuous optimizer is the raw box, not the unit box the
builder also computes (and then ignores), and the candidates are returned
exactly as the external optimizer produced them, with no unnormalization. -/
theorem C7_cex :
    qehviTrace7.acq_call.bounds = [((0 : ℚ), 2)] ∧
    qehviTrace7.standard_bounds = [((0 : ℚ), 1)] ∧
    qehviTrace7.acq_call.bounds ≠ qehviTrace7.standard_bounds ∧
    qehviTrace7.candidates = [[(3 : ℚ) / 2]] := by
  refine ⟨rfl, rfl, ?_, rfl⟩
  rw [show qehviTrace7.acq_call.bounds = [((0 : ℚ), 2)] from rfl,
      show qehviTrace7.standard_bounds = [((0 : ℚ), 1)] from rfl]
  simp

/-- C7 (amended): the acquisition optimizer maximizes over the raw
design-space bounds box, sequentially for each element of the requested
batch, and returns the external optimizer's candidates unchanged. -/
theorem C7_amended (opt : AcqCall → List (List ℚ))
    (train_y train_c : List (List ℚ)) (bounds : List (ℚ × ℚ))
    (ref_point : List ℚ) (batch_size num_restarts raw_samples : Nat) :
    (optimize_qehvi opt train_y train_c bounds ref_point batch_size
        num_restarts raw_samples).acq_call.bounds = bounds ∧
    (optimize_qehvi opt train_y train_c bounds ref_point batch_size
        num_restarts raw_samples).acq_call.q = batch_size ∧
    (optimize_qehvi opt train_y train_c bounds ref_point batch_size
        num_restarts raw_samples).acq_call.sequential = true ∧
    (optimize_qehvi opt train_y train_c bounds ref_point batch_size
        num_restarts raw_samples).candidates =
      opt (optimize_qehvi opt train_y train_c bounds ref_point batch_size
        num_restarts raw_samples).acq_call :=
  ⟨rfl, rfl, rfl, rfl⟩

/-- C3 counterexample: a run with step budget 1 whose only batch produces
zero successes records no hypervolume entry at all, so the recorded
sequence does not have `n_steps` entries. -/
theorem C3_cex :
    (mobo_run vocs0 [0] evalsFail 1 st0).hv_track.length = 0 ∧
    (0 : Nat) ≠ 1 := by
  decide

/-- C3 (amended): the loop records exactly one hypervolume entry per
iteration whose batch contains at least one success; iterations skipped via
`NoValidResultsError` record nothing, so the recorded sequence has one
entry per successful iteration rather than `n_steps` entries. -/
theorem C3_amended (vocs : VocsSpec) (ref : List ℚ)
    (evals : Nat → List EvalResult) (n : Nat) (st : LoopState) :
    (mobo_run vocs ref evals n st).hv_track.length =
      st.hv_track.length +
        ((List.range n).filter
          (fun i => (evals i).any (fun r => !r.error))).length := by
  induction n with
  | zero => simp [mobo_run]
  | succ n ih =>
    rw [mobo_run, mobo_iteration_hv_length, ih, List.range_succ,
        List.filter_append, List.length_append]
    cases h : (evals n).any (fun r => !r.error) <;> simp [h, Nat.add_assoc]

/-- C6 counterexample: on a dataset whose corrected objective column is
constantly 5, the tensor whose feasible rows feed the Pareto/hypervolume
computation is the corrected tensor `[[5],[5]]`, while its standardized
version is `[[0],[0]]` — so the hypervolume is not taken from the
standardized tensor. -/
theorem C6_cex :
    (mobo_run vocs0 [0] evalsOk 1 st6).hv_source_log = [[[5], [5]]] ∧
    standardize (corrected_train_y vocs0 [[5], [5]]) = [[0], [0]] ∧
    ([[5], [5]] : List (List ℚ)) ≠ [[0], [0]] := by
  refine ⟨rfl, ?_, ?_⟩
  · norm_num [standardize, corrected_train_y, correct_objective_entry, vocs0,
      col_std, col_var, col_mean, ratSqrt]
  · simp

/-- C6 (amended): each iteration fits the surrogate on the horizontal stack
of the standardized corrected objective tensor with the corrected
constraint tensor, but computes the iteration's hypervolume from the
sign-corrected, non-standardized objective tensor. -/
theorem C6_amended (vocs : VocsSpec) (ref : List ℚ)
    (eval_r : List EvalResult) (st : LoopState) :
    (mobo_iteration vocs ref eval_r st).fit_outputs_log =
      st.fit_outputs_log ++
        [hstack (standardize (corrected_train_y vocs st.train_y))
          (corrected_train_c vocs st.train_c)] ∧
    (mobo_iteration vocs ref eval_r st).hv_source_log =
      (if eval_r.any (fun r => !r.error) then
        st.hv_source_log ++ [corrected_train_y vocs st.train_y]
      else st.hv_source_log) := by
  rw [mobo_iteration, collect_results_eq]
  cases h : eval_r.any (fun r => !r.error) <;> simp [h]

end Xopt

